import Mathlib

/-!
Verification development for the restful-ml-deployment repository: a small
HTTP service that serves predicted probabilities from a pre-trained
logistic-regression model behind HTTP Basic authentication.

The repository sources available here are `scripts/creds.sh` (the credential
generation script, together with the generated OpenAPI document and the
Dockerfile) and `notebooks/train.ipynb` (the training notebook, which records
the fitted coefficients and the artifact's variable names).  The Python
serving core itself (FastAPI application, pydantic models) is not among the
sources; where a definition embeds that missing core it is modelled from the
specification, and its doc comment says so.
-/

namespace RestfulML

/-- The canonical ordered field list of the serving schema, from the OpenAPI
document's ModelFeatures.required list (same order as the spec's
FeatureSchema). -/
def canonicalFields : List String :=
  ["mean_radius", "mean_texture", "mean_perimeter", "mean_area",
   "mean_smoothness", "mean_compactness", "mean_concavity",
   "mean_concave_points", "mean_symmetry", "mean_fractal_dimension"]

/-- The variable names recorded on the trained artifact, as printed by the
training notebook (`model.variable_names` / `loaded_model.variable_names`):
the selected breast-cancer features, space-separated. -/
def artifactVariableNames : List String :=
  ["mean radius", "mean texture", "mean perimeter", "mean area",
   "mean smoothness", "mean compactness", "mean concavity",
   "mean concave points", "mean symmetry", "mean fractal dimension"]

/- ------------------------------------------------------------------ -/
/- Credential generation script (scripts/creds.sh)                     -/
/- ------------------------------------------------------------------ -/

/-- The character class kept by `tr -dc A-Za-z0-9` in creds.sh. -/
def isAlnumChar (ch : Char) : Bool :=
  (decide ('A' ≤ ch) && decide (ch ≤ 'Z')) ||
  (decide ('a' ≤ ch) && decide (ch ≤ 'z')) ||
  (decide ('0' ≤ ch) && decide (ch ≤ '9'))

/-- `tr -dc A-Za-z0-9`: delete every byte outside the alphanumeric class. -/
def trKeepAlnum (stream : List Char) : List Char :=
  stream.filter isAlnumChar

/-- `head -c n`: keep the first `n` bytes of the stream. -/
def headBytes (n : Nat) (stream : List Char) : List Char :=
  stream.take n

/-- `$(head /dev/urandom | tr -dc A-Za-z0-9 | head -c n)`: the token built
from a raw byte stream by filtering to alphanumerics and truncating to `n`
characters. -/
def genToken (n : Nat) (stream : List Char) : List Char :=
  headBytes n (trKeepAlnum stream)

/-- creds.sh lines 3-7: `AUTH_UN` is an 8-character token, `AUTH_PW` a
24-character token, each drawn from an independent urandom stream. -/
def credsScript (stream1 stream2 : List Char) : List Char × List Char :=
  (genToken 8 stream1, genToken 24 stream2)

/-- The content of a text file, one entry per line. -/
abbrev EnvFile := List String

/-- `echo "line" > file`: truncate the file and write the single line. -/
def writeTrunc (line : String) (_file : EnvFile) : EnvFile :=
  [line]

/-- `echo "line" >> file`: append the line to the file. -/
def writeAppend (line : String) (file : EnvFile) : EnvFile :=
  file ++ [line]

/-- creds.sh lines 9-10: `echo "AUTH_UN=$AUTH_UN" > .env` followed by
`echo "AUTH_PW=$AUTH_PW" >> .env`, starting from whatever `.env` held
before the script ran. -/
def runCredsScript (prev : EnvFile) (un pw : String) : EnvFile :=
  writeAppend ("AUTH_PW=" ++ pw) (writeTrunc ("AUTH_UN=" ++ un) prev)

/- ------------------------------------------------------------------ -/
/- Error taxonomy and fixed responses (OpenAPI document)               -/
/- ------------------------------------------------------------------ -/

/-- One record per rejected field, from the OpenAPI document's
ValidationErrorDetail schema: field_name, error_message, value_received,
expected_type. -/
structure ValidationErrorDetail where
  field_name : String
  error_message : String
  value_received : String
  expected_type : String
deriving DecidableEq, Repr

/-- A response body, one constructor per body schema of the OpenAPI
document: HealthCheck, ModelResponse, the two fixed-detail error schemas,
and ValidationErrorResponse. -/
inductive Body where
  | health (status : String)
  | result (identifier : List String) (predictions : List ℝ)
  | err (detail : String)
  | verr (detail : String) (errors : List ValidationErrorDetail)

/-- An HTTP response: status code and body. -/
structure Response where
  status : Nat
  body : Body

/-- The three error kinds of the spec's error taxonomy. -/
inductive ErrorKind where
  | unauthorized
  | validation (errors : List ValidationErrorDetail)
  | internal

/-- Modelled from the spec (the ErrorResponder of the serving core is not
among the sources; the OpenAPI document pins each schema's constant detail
text and each path's status codes): Unauthorized is 401 with detail
"Invalid credentials.", Validation is 422 with detail "Validation error"
and the error records, Internal is 500 with detail
"Internal server error occured." (sic). -/
def errorResponse : ErrorKind → Response
  | .unauthorized => ⟨401, .err "Invalid credentials."⟩
  | .validation errs => ⟨422, .verr "Validation error" errs⟩
  | .internal => ⟨500, .err "Internal server error occured."⟩

/- ------------------------------------------------------------------ -/
/- Credentials and auth guard                                          -/
/- ------------------------------------------------------------------ -/

/-- The two process-wide secret strings. -/
structure Credentials where
  username : String
  password : String

/-- Modelled from the spec: CredentialStore.verify — both provided values
must equal the configured secrets (the constant-time aspect of the
comparison is a timing property outside this embedding; its result is plain
equality). -/
def verifyCreds (c : Credentials) (un pw : String) : Bool :=
  (c.username == un) && (c.password == pw)

/-- Modelled from the spec: the health-check operation `GET /check` — once
AuthGuard passes it returns 200 with the HealthCheck body whose status is
the constant "active"; otherwise the fixed unauthorized response. -/
def handleCheck (c : Credentials) (un pw : String) : Response :=
  if verifyCreds c un pw then ⟨200, .health "active"⟩
  else errorResponse .unauthorized

/- ------------------------------------------------------------------ -/
/- Request validation (RequestValidator / FeatureSchema)               -/
/- ------------------------------------------------------------------ -/

/-- A raw `data` object of a request body: field name to array of numbers,
in the order the fields appear in the JSON text. -/
abbrev RawData := List (String × List ℚ)

/-- The body of `POST /inference`, from the OpenAPI ModelRequest schema:
parallel `identifier` and `data` members. -/
structure ModelRequest where
  identifier : List String
  data : RawData

/-- The field names present in a raw data object. -/
def keysOf (d : RawData) : List String :=
  d.map Prod.fst

/-- The error record produced for a required field absent from the data
object. -/
def missingFieldError (f : String) : ValidationErrorDetail :=
  ⟨f, "Field required", "missing", "array of numbers"⟩

/-- The error record produced for a field not in the schema
(additionalProperties is false on ModelFeatures). -/
def extraFieldError (f : String) : ValidationErrorDetail :=
  ⟨f, "Extra inputs are not permitted", f, "no additional fields"⟩

/-- The error record produced for a field whose array length differs from
the identifier list's length. -/
def lengthMismatchError (f : String) : ValidationErrorDetail :=
  ⟨f, "Length differs from identifier", f, "array with one entry per identifier"⟩

/-- Modelled from the spec: FeatureSchema field-presence validation —
exactly the ten required field names must be present; one error record per
missing required field and one per unrecognized extra field. -/
def fieldErrors (d : RawData) : List ValidationErrorDetail :=
  ((canonicalFields.filter (fun f => decide (f ∉ keysOf d))).map missingFieldError)
    ++ (((keysOf d).filter (fun k => decide (k ∉ canonicalFields))).map extraFieldError)

/-- Modelled from the spec: the identifier/data length-parity invariant —
one error record per field whose value array's length differs from the
identifier list's length. -/
def lengthErrors (req : ModelRequest) : List ValidationErrorDetail :=
  (req.data.filter (fun kv => decide (kv.2.length ≠ req.identifier.length))).map
    (fun kv => lengthMismatchError kv.1)

/-- Modelled from the spec: RequestValidator — aggregates all detected
errors (field presence and length parity); the request is accepted exactly
when this list is empty. -/
def validateRequest (req : ModelRequest) : List ValidationErrorDetail :=
  fieldErrors req.data ++ lengthErrors req

/- ------------------------------------------------------------------ -/
/- Model artifact and inference engine                                 -/
/- ------------------------------------------------------------------ -/

/-- The trained-model artifact's surface, per the spec's ModelArtifact and
the notebook's LogReg object: the ordered variable names it was trained on,
and its fitted coefficients (intercept first, then one coefficient per
variable, as in `loaded_model.betas`). -/
structure Artifact where
  variable_names : List String
  intercept : ℚ
  coefs : List ℚ

/-- The fitted model from the training notebook: `loaded_model.betas` as
printed after deserialization, paired with its recorded variable names. -/
def trainedArtifact : Artifact :=
  ⟨artifactVariableNames, 13.5702105,
   [2.71903741, -0.430439215, -0.0941448707, -0.0362963324, -87.6111312,
    12.0803569, -7.92314349, -70.6945121, -11.0483115, 27.0747687]⟩

/-- The logistic link function applied by LogReg.predict. -/
noncomputable def sigmoid (x : ℝ) : ℝ :=
  1 / (1 + Real.exp (-x))

/-- The linear term of the logistic model on one observation row:
intercept plus coefficient-weighted features. -/
def linearTerm (a : Artifact) (row : List ℚ) : ℚ :=
  a.intercept + ((a.coefs.zip row).map (fun bx => bx.1 * bx.2)).sum

/-- One predicted probability for one observation row. -/
noncomputable def inferOne (a : Artifact) (row : List ℚ) : ℝ :=
  sigmoid ((linearTerm a row : ℚ) : ℝ)

/-- `model.predict`: one probability per row, in row order, with no
thresholding. -/
noncomputable def predictBatch (a : Artifact) (rows : List (List ℚ)) : List ℝ :=
  rows.map (inferOne a)

/-- The fixed description of a variable-name mismatch between the artifact
and the serving schema. -/
def schemaMismatchMsg : String :=
  "model variable names do not match the serving schema"

/-- Modelled from the spec: the load-time artifact check of the serving
core (not among the sources) — the artifact's ordered variable-name list
must exactly equal FeatureSchema's canonical field list; any mismatch is a
startup-fatal configuration error. -/
def loadModel (a : Artifact) : Except String Artifact :=
  if a.variable_names = canonicalFields then .ok a
  else .error schemaMismatchMsg

/-- Modelled from the spec: InferenceEngine — verifies at call time that
the column order matches the model's recorded variable-name order; a
mismatch fails the whole batch, otherwise every row is predicted. -/
noncomputable def runInference (a : Artifact) (rows : List (List ℚ)) :
    Except String (List ℝ) :=
  if a.variable_names = canonicalFields then .ok (predictBatch a rows)
  else .error schemaMismatchMsg

/-- The value array supplied for field `f`, empty when absent (callers only
use this on validated requests, where every field is present). -/
def lookupField (d : RawData) (f : String) : List ℚ :=
  match d.find? (fun kv => kv.1 == f) with
  | some kv => kv.2
  | none => []

/-- Row `i` of the canonical per-row numeric matrix: the `i`-th entry of
every field's array, in canonical field order. -/
def rowOf (req : ModelRequest) (i : Nat) : List ℚ :=
  canonicalFields.map (fun f => (lookupField req.data f).getD i 0)

/-- The canonical matrix of a request: one row per identifier, in request
order. -/
def rowsOf (req : ModelRequest) : List (List ℚ) :=
  (List.range req.identifier.length).map (rowOf req)

/-- Modelled from the spec: the `POST /inference` handler — AuthGuard, then
RequestValidator (failing the whole batch on any validation error), then
InferenceEngine, echoing the identifiers next to the predictions on
success; an engine failure is an internal error. -/
noncomputable def handleInference (c : Credentials) (un pw : String)
    (a : Artifact) (req : ModelRequest) : Response :=
  if verifyCreds c un pw then
    match validateRequest req with
    | [] =>
      match runInference a (rowsOf req) with
      | .ok preds => ⟨200, .result req.identifier preds⟩
      | .error _ => errorResponse .internal
    | e :: es => errorResponse (.validation (e :: es))
  else errorResponse .unauthorized

/-- The serving process's per-request state: it carries only the loaded
artifact, loaded once at startup. -/
structure Engine where
  artifact : Artifact

/-- One inference call as a state transition: the response together with
the engine state after the call (the artifact is read-only; nothing is
mutated). -/
noncomputable def inferCall (e : Engine) (c : Credentials) (un pw : String)
    (req : ModelRequest) : Response × Engine :=
  (handleInference c un pw e.artifact req, e)

/- ------------------------------------------------------------------ -/
/- Concrete fixtures used by the witnesses                             -/
/- ------------------------------------------------------------------ -/

/-- A configured credential pair used to exercise the handlers. -/
def credsFixture : Credentials :=
  ⟨"user1234", "pw"⟩

/-- The trained coefficients attached to the canonical (serving schema)
variable names — the shape the spec requires of a deployable artifact. -/
def alignedArtifact : Artifact :=
  ⟨canonicalFields, trainedArtifact.intercept, trainedArtifact.coefs⟩

/-- One observation row used to probe the prediction function. -/
def probeRow : List ℚ :=
  [1, 2, 3, 4, 5, 6, 7, 8, 9, 10]

/-- A data object missing mean_texture and carrying an unrecognized
field. -/
def badFieldData : RawData :=
  [("mean_radius", []), ("mean_perimeter", []), ("mean_area", []),
   ("mean_smoothness", []), ("mean_compactness", []), ("mean_concavity", []),
   ("mean_concave_points", []), ("mean_symmetry", []),
   ("mean_fractal_dimension", []), ("foo", [])]

/-- A request whose mean_radius array has length 2 while the identifier
list has length 3. -/
def reqMismatch : ModelRequest :=
  ⟨["a", "b", "c"],
   [("mean_radius", [1, 2]), ("mean_texture", [1, 2, 3]),
    ("mean_perimeter", [1, 2, 3]), ("mean_area", [1, 2, 3]),
    ("mean_smoothness", [1, 2, 3]), ("mean_compactness", [1, 2, 3]),
    ("mean_concavity", [1, 2, 3]), ("mean_concave_points", [1, 2, 3]),
    ("mean_symmetry", [1, 2, 3]), ("mean_fractal_dimension", [1, 2, 3])]⟩

/-- A valid two-observation request. -/
def reqA : ModelRequest :=
  ⟨["a", "b"],
   [("mean_radius", [14, 20]), ("mean_texture", [20, 15]),
    ("mean_perimeter", [90, 130]), ("mean_area", [600, 1200]),
    ("mean_smoothness", [1, 2]), ("mean_compactness", [1, 2]),
    ("mean_concavity", [1, 2]), ("mean_concave_points", [1, 2]),
    ("mean_symmetry", [1, 2]), ("mean_fractal_dimension", [1, 2])]⟩

/-- The same two observations as reqA with their row order swapped. -/
def reqB : ModelRequest :=
  ⟨["b", "a"],
   [("mean_radius", [20, 14]), ("mean_texture", [15, 20]),
    ("mean_perimeter", [130, 90]), ("mean_area", [1200, 600]),
    ("mean_smoothness", [2, 1]), ("mean_compactness", [2, 1]),
    ("mean_concavity", [2, 1]), ("mean_concave_points", [2, 1]),
    ("mean_symmetry", [2, 1]), ("mean_fractal_dimension", [2, 1])]⟩

end RestfulML

namespace RestfulML

/-- C9: The credential-generation script produces a username of exactly 8
characters and a password of exactly 24 characters, each consisting only of
alphanumeric characters A-Za-z0-9 — provided the urandom streams contain
enough alphanumeric bytes (with `head /dev/urandom` this holds with
overwhelming probability, and the filter guarantees the character class
unconditionally). -/
theorem creds_script_token_shape (s1 s2 : List Char)
    (h1 : 8 ≤ (trKeepAlnum s1).length) (h2 : 24 ≤ (trKeepAlnum s2).length) :
    (credsScript s1 s2).1.length = 8 ∧
    (credsScript s1 s2).2.length = 24 ∧
    (∀ ch ∈ (credsScript s1 s2).1, isAlnumChar ch = true) ∧
    (∀ ch ∈ (credsScript s1 s2).2, isAlnumChar ch = true) := by
  refine ⟨?_, ?_, ?_, ?_⟩
  · simpa [credsScript, genToken, headBytes] using h1
  · simpa [credsScript, genToken, headBytes] using h2
  · intro ch hch
    have : ch ∈ trKeepAlnum s1 :=
      List.mem_of_mem_take (by simpa [credsScript, genToken, headBytes] using hch)
    exact (List.mem_filter.mp this).2
  · intro ch hch
    have : ch ∈ trKeepAlnum s2 :=
      List.mem_of_mem_take (by simpa [credsScript, genToken, headBytes] using hch)
    exact (List.mem_filter.mp this).2

/-- Witness for C9 at a concrete pair of byte streams that contain at least
8 (resp. 24) alphanumeric bytes. -/
theorem creds_script_token_shape_witness :
    (8 ≤ (trKeepAlnum ("*a1B2c3D4e5F!" ++ "gHiJkLmNoPqRstUvWxYz0123456789").toList).length ∧
     24 ≤ (trKeepAlnum ("gHiJkLmNoPqRstUvWxYz0123456789!!").toList).length) ∧
    ((credsScript ("*a1B2c3D4e5F!" ++ "gHiJkLmNoPqRstUvWxYz0123456789").toList
        ("gHiJkLmNoPqRstUvWxYz0123456789!!").toList).1.length = 8 ∧
     (credsScript ("*a1B2c3D4e5F!" ++ "gHiJkLmNoPqRstUvWxYz0123456789").toList
        ("gHiJkLmNoPqRstUvWxYz0123456789!!").toList).2.length = 24 ∧
     (∀ ch ∈ (credsScript ("*a1B2c3D4e5F!" ++ "gHiJkLmNoPqRstUvWxYz0123456789").toList
        ("gHiJkLmNoPqRstUvWxYz0123456789!!").toList).1, isAlnumChar ch = true) ∧
     (∀ ch ∈ (credsScript ("*a1B2c3D4e5F!" ++ "gHiJkLmNoPqRstUvWxYz0123456789").toList
        ("gHiJkLmNoPqRstUvWxYz0123456789!!").toList).2, isAlnumChar ch = true)) :=
  ⟨⟨by decide, by decide⟩,
   creds_script_token_shape _ _ (by decide) (by decide)⟩

/-- The logistic link takes values in the open unit interval from below. -/
theorem sigmoid_nonneg (x : ℝ) : 0 ≤ sigmoid x := by
  unfold sigmoid
  positivity

/-- The logistic link never exceeds one. -/
theorem sigmoid_le_one (x : ℝ) : sigmoid x ≤ 1 := by
  unfold sigmoid
  have hpos : 0 < 1 + Real.exp (-x) := by positivity
  rw [div_le_one hpos]
  linarith [Real.exp_pos (-x)]

/-- C2: The error responder maps each error kind to its fixed status and
body — Unauthorized to 401 with detail "Invalid credentials.", Validation
to 422 with detail "Validation error" and the ValidationErrorDetail
records, Internal to 500 with detail "Internal server error occured." —
and no other status is used for these kinds. -/
theorem error_responder_fixed_mapping :
    errorResponse .unauthorized = ⟨401, .err "Invalid credentials."⟩ ∧
    (∀ errs, errorResponse (.validation errs) =
      ⟨422, .verr "Validation error" errs⟩) ∧
    errorResponse .internal = ⟨500, .err "Internal server error occured."⟩ ∧
    (∀ k, (errorResponse k).status = 401 ∨ (errorResponse k).status = 422 ∨
      (errorResponse k).status = 500) := by
  refine ⟨rfl, fun errs => rfl, rfl, fun k => ?_⟩
  cases k <;> simp [errorResponse]

/-- C8: Once authentication passes, the health-check operation returns
HTTP 200 with the HealthCheck body whose status is "active". -/
theorem health_check_active (c : Credentials) (un pw : String)
    (h : verifyCreds c un pw = true) :
    handleCheck c un pw = ⟨200, .health "active"⟩ := by
  simp [handleCheck, h]

/-- Witness for C8 at the concrete configured credentials. -/
theorem health_check_active_witness :
    verifyCreds credsFixture "user1234" "pw" = true ∧
    handleCheck credsFixture "user1234" "pw" = ⟨200, .health "active"⟩ :=
  ⟨by decide, health_check_active credsFixture "user1234" "pw" (by decide)⟩

/-- C7: Inference is a deterministic function of the payload and the loaded
model: calling it twice with the identical payload yields the identical
response, and the engine state (the loaded artifact) is unchanged by a
call. -/
theorem inference_deterministic (e : Engine) (c : Credentials)
    (un pw : String) (req : ModelRequest) :
    (inferCall e c un pw req).1 =
      (inferCall (inferCall e c un pw req).2 c un pw req).1 ∧
    (inferCall e c un pw req).2 = e :=
  ⟨rfl, rfl⟩

/-- C1: Loading validates that the artifact's ordered variable-name list
exactly equals the canonical field list: loading succeeds exactly on
equality, any mismatched artifact is a startup-fatal configuration error,
and at inference time a mismatched variable list fails the whole batch. -/
theorem artifact_schema_mismatch_fatal (a : Artifact)
    (h : a.variable_names ≠ canonicalFields) :
    (∀ b : Artifact, loadModel b = .ok b ↔ b.variable_names = canonicalFields) ∧
    loadModel a = .error schemaMismatchMsg ∧
    ∀ rows, runInference a rows = .error schemaMismatchMsg := by
  refine ⟨fun b => ?_, ?_, fun rows => ?_⟩
  · by_cases hb : b.variable_names = canonicalFields <;> simp [loadModel, hb]
  · simp [loadModel, h]
  · simp [runInference, h]

/-- Witness for C1 at the artifact actually produced by the training
notebook, whose recorded variable names are space-separated and therefore
differ from the canonical underscored field list. -/
theorem artifact_schema_mismatch_fatal_witness :
    trainedArtifact.variable_names ≠ canonicalFields ∧
    ((∀ b : Artifact, loadModel b = .ok b ↔ b.variable_names = canonicalFields) ∧
     loadModel trainedArtifact = .error schemaMismatchMsg ∧
     ∀ rows, runInference trainedArtifact rows = .error schemaMismatchMsg) :=
  ⟨by decide, artifact_schema_mismatch_fatal trainedArtifact (by decide)⟩

/-- C6: Every value in a predicted batch lies in the closed interval
from zero to one, and is the raw per-row model probability — no
thresholding is applied before it is returned. -/
theorem predictions_are_probabilities (a : Artifact) (rows : List (List ℚ))
    (p : ℝ) (hp : p ∈ predictBatch a rows) :
    (0 ≤ p ∧ p ≤ 1) ∧ ∃ row ∈ rows, p = inferOne a row := by
  rcases List.mem_map.mp hp with ⟨row, hrow, rfl⟩
  exact ⟨⟨sigmoid_nonneg _, sigmoid_le_one _⟩, ⟨row, hrow, rfl⟩⟩

/-- Witness for C6 at a concrete row and the trained coefficients. -/
theorem predictions_are_probabilities_witness :
    (inferOne alignedArtifact probeRow ∈ predictBatch alignedArtifact [probeRow]) ∧
    ((0 ≤ inferOne alignedArtifact probeRow ∧
      inferOne alignedArtifact probeRow ≤ 1) ∧
     ∃ row ∈ [probeRow],
       inferOne alignedArtifact probeRow = inferOne alignedArtifact row) :=
  ⟨by simp [predictBatch],
   predictions_are_probabilities alignedArtifact [probeRow] _
     (by simp [predictBatch])⟩

/-- C3: A data object is accepted by field validation exactly when
precisely the ten required field names are present; a missing required
field yields an error record naming exactly that field, an unrecognized
extra field yields an error record naming it, and a field-level failure is
never dropped by the request validator. -/
theorem data_field_exactness (d : RawData) :
    (fieldErrors d = [] ↔
      ((∀ f ∈ canonicalFields, f ∈ keysOf d) ∧
       ∀ k ∈ keysOf d, k ∈ canonicalFields)) ∧
    (∀ f ∈ canonicalFields, f ∉ keysOf d →
      ∃ e ∈ fieldErrors d, e.field_name = f ∧
        e.error_message = "Field required") ∧
    (∀ k ∈ keysOf d, k ∉ canonicalFields →
      ∃ e ∈ fieldErrors d, e.field_name = k ∧
        e.error_message = "Extra inputs are not permitted") ∧
    (∀ ident, fieldErrors d ≠ [] → validateRequest ⟨ident, d⟩ ≠ []) := by
  refine ⟨?_, ?_, ?_, ?_⟩
  · simp [fieldErrors, List.filter_eq_nil_iff]
  · intro f hf hnot
    refine ⟨missingFieldError f, ?_, rfl, rfl⟩
    exact List.mem_append_left _
      (List.mem_map_of_mem _ (List.mem_filter.mpr ⟨hf, by simp [hnot]⟩))
  · intro k hk hnotc
    refine ⟨extraFieldError k, ?_, rfl, rfl⟩
    exact List.mem_append_right _
      (List.mem_map_of_mem _ (List.mem_filter.mpr ⟨hk, by simp [hnotc]⟩))
  · intro ident hne h
    exact hne (List.append_eq_nil.mp h).1

/-- Witness for C3 at a data object that lacks mean_texture and carries an
unrecognized field. -/
theorem data_field_exactness_witness :
    ("mean_texture" ∈ canonicalFields ∧ "mean_texture" ∉ keysOf badFieldData ∧
     "foo" ∈ keysOf badFieldData ∧ "foo" ∉ canonicalFields) ∧
    (∃ e ∈ fieldErrors badFieldData, e.field_name = "mean_texture" ∧
      e.error_message = "Field required") ∧
    (∃ e ∈ fieldErrors badFieldData, e.field_name = "foo" ∧
      e.error_message = "Extra inputs are not permitted") :=
  ⟨⟨by decide, by decide, by decide, by decide⟩,
   (data_field_exactness badFieldData).2.1 "mean_texture" (by decide) (by decide),
   (data_field_exactness badFieldData).2.2.1 "foo" (by decide) (by decide)⟩

/-- C4: A request in which some data field's array length differs from the
identifier list's length is rejected with a validation error referencing
that field — independently of the individual values — and the response is
the 422 validation response, so inference is never attempted. -/
theorem length_mismatch_rejected (c : Credentials) (un pw : String)
    (a : Artifact) (req : ModelRequest) (f : String) (vs : List ℚ)
    (hauth : verifyCreds c un pw = true)
    (hmem : (f, vs) ∈ req.data)
    (hlen : vs.length ≠ req.identifier.length) :
    (∃ e ∈ validateRequest req, e.field_name = f) ∧
    handleInference c un pw a req =
      ⟨422, .verr "Validation error" (validateRequest req)⟩ := by
  have hfe : lengthMismatchError f ∈ lengthErrors req := by
    have hmem' : (f, vs) ∈ req.data.filter
        (fun kv => decide (kv.2.length ≠ req.identifier.length)) :=
      List.mem_filter.mpr ⟨hmem, by simp [hlen]⟩
    exact List.mem_map_of_mem (fun kv => lengthMismatchError kv.1) hmem'
  have hve : lengthMismatchError f ∈ validateRequest req :=
    List.mem_append_right _ hfe
  refine ⟨⟨lengthMismatchError f, hve, rfl⟩, ?_⟩
  cases hv : validateRequest req with
  | nil =>
    rw [hv] at hve
    exact absurd hve (List.not_mem_nil _)
  | cons e es =>
    simp [handleInference, hauth, hv, errorResponse]

/-- Witness for C4 at the concrete request whose identifier has length 3
while mean_radius carries only 2 values. -/
theorem length_mismatch_rejected_witness :
    (verifyCreds credsFixture "user1234" "pw" = true ∧
     ("mean_radius", ([1, 2] : List ℚ)) ∈ reqMismatch.data ∧
     ([1, 2] : List ℚ).length ≠ reqMismatch.identifier.length) ∧
    ((∃ e ∈ validateRequest reqMismatch, e.field_name = "mean_radius") ∧
     handleInference credsFixture "user1234" "pw" trainedArtifact reqMismatch =
       ⟨422, .verr "Validation error" (validateRequest reqMismatch)⟩) :=
  ⟨⟨by decide, List.mem_cons_self _ _, by decide⟩,
   length_mismatch_rejected credsFixture "user1234" "pw" trainedArtifact
     reqMismatch "mean_radius" [1, 2] (by decide) (List.mem_cons_self _ _)
     (by decide)⟩

/-- C5: For a valid batch the success response echoes the identifiers in
request order and carries one prediction per identifier; prediction k is
the model output on row k of the canonical matrix, and a prediction depends
only on its own row's content, so it follows its observation under any
reordering of the batch. -/
theorem inference_preserves_order (c : Credentials) (un pw : String)
    (a : Artifact) (req req' : ModelRequest) (i j : Nat)
    (hauth : verifyCreds c un pw = true)
    (ha : a.variable_names = canonicalFields)
    (hv : validateRequest req = []) (hv' : validateRequest req' = [])
    (hi : i < req.identifier.length) (hj : j < req'.identifier.length)
    (hrow : rowOf req i = rowOf req' j) :
    handleInference c un pw a req =
      ⟨200, .result req.identifier (predictBatch a (rowsOf req))⟩ ∧
    (predictBatch a (rowsOf req)).length = req.identifier.length ∧
    (∀ k, k < req.identifier.length →
      (predictBatch a (rowsOf req))[k]? = some (inferOne a (rowOf req k))) ∧
    (predictBatch a (rowsOf req))[i]? = (predictBatch a (rowsOf req'))[j]? := by
  have hget : ∀ (r : ModelRequest) (k : Nat), k < r.identifier.length →
      (predictBatch a (rowsOf r))[k]? = some (inferOne a (rowOf r k)) := by
    intro r k hk
    simp [predictBatch, rowsOf, List.getElem?_map, List.getElem?_range, hk]
  refine ⟨?_, ?_, hget req, ?_⟩
  · simp [handleInference, hauth, hv, runInference, ha]
  · simp [predictBatch, rowsOf]
  · rw [hget req i hi, hget req' j hj, hrow]

/-- Witness for C5 at a valid two-observation request and the same
observations in swapped order. -/
theorem inference_preserves_order_witness :
    (verifyCreds credsFixture "user1234" "pw" = true ∧
     alignedArtifact.variable_names = canonicalFields ∧
     validateRequest reqA = [] ∧ validateRequest reqB = [] ∧
     0 < reqA.identifier.length ∧ 1 < reqB.identifier.length ∧
     rowOf reqA 0 = rowOf reqB 1) ∧
    (handleInference credsFixture "user1234" "pw" alignedArtifact reqA =
       ⟨200, .result reqA.identifier (predictBatch alignedArtifact (rowsOf reqA))⟩ ∧
     (predictBatch alignedArtifact (rowsOf reqA)).length =
       reqA.identifier.length ∧
     (∀ k, k < reqA.identifier.length →
       (predictBatch alignedArtifact (rowsOf reqA))[k]? =
         some (inferOne alignedArtifact (rowOf reqA k))) ∧
     (predictBatch alignedArtifact (rowsOf reqA))[0]? =
       (predictBatch alignedArtifact (rowsOf reqB))[1]?) :=
  ⟨⟨by decide, by decide, by decide, by decide, by decide, by decide,
    by decide⟩,
   inference_preserves_order credsFixture "user1234" "pw" alignedArtifact
     reqA reqB 0 1 (by decide) (by decide) (by decide) (by decide)
     (by decide) (by decide) (by decide)⟩

/-- C10: Running the credential script unconditionally truncates and rewrites
`.env`: afterwards the file is exactly the two lines `AUTH_UN=...` then
`AUTH_PW=...`, and the result does not depend on the previous content of the
file (earlier credentials are lost). -/
theorem creds_script_rewrites_env (prev prev' : EnvFile) (un pw : String) :
    runCredsScript prev un pw = ["AUTH_UN=" ++ un, "AUTH_PW=" ++ pw] ∧
    runCredsScript prev un pw = runCredsScript prev' un pw :=
  ⟨rfl, rfl⟩

end RestfulML
